import Mathlib

/-!
Verification of the GPIB instrument wrappers (power meter `PM` of
`HP43x.py` / `__init__.py`, signal generator `SG` of `__init__.py`).

The Python 2 methods are embedded shallowly: each method becomes a pure
function from its inputs (the `pm_type` string, the bytes the GPIB `read`
calls return, flags saying whether a guarded `write`/`read` raised) to the
observable outcome (the list of command strings written, the value
returned or the exception propagated, the updated attributes).

Python-2 specific semantics that matter here and are modelled faithfully:
- `re.search(pat, s)` for the literal patterns used ("436", "437", "438",
  "E4418") succeeds iff `pat` occurs as a substring of `s`;
- `int(c)` on a one-character string succeeds iff the character is a
  decimal digit, and raises `ValueError` otherwise;
- comparing a `str` with an `int` (as in `rel_mode > 0`) never raises in
  CPython 2: any string compares strictly greater than any integer, so the
  comparison is `True` whenever `rel_mode` holds a character;
- `s[a:b]` slicing clamps to the string, while `s[i]` raises `IndexError`
  when `i` is out of range.
-/

/-- Number of characters of a Python string. -/
def pyLen (s : String) : Nat := s.toList.length

/-- `s[i]` as a total function: `some` the character, `none` when the index
is out of range (where CPython raises `IndexError`). -/
def charAt (s : String) (i : Nat) : Option Char := s.toList[i]?

/-- `re.search(pat, s)` for a literal (regex-free) pattern: does `pat`
occur as a contiguous substring of `s`? -/
def reSearch (pat s : String) : Bool :=
  (List.range (s.toList.length + 1)).any fun i =>
    pat.toList.isPrefixOf (s.toList.drop i)

/-- `s[4:6]`: Python slicing clamps, so this is total. -/
def statusSlice (s : String) : String := String.mk ((s.toList.drop 4).take 2)

/-- The condition of `PM.get_mode` / `PM.set_mode`'s `elif`:
`re.search('437', pm_type) or re.search('438', pm_type) or
re.search('E4418', pm_type)`. -/
def knownPmType (pm_type : String) : Bool :=
  reSearch "437" pm_type || reSearch "438" pm_type || reSearch "E4418" pm_type

/-- Outcome of the response-parsing tail of `PM.get_mode` (everything after
`response = self.read()`, which is not inside any `try`). -/
inductive ParseOutcome where
  | ok (m : String)
  | valueError
  | indexError
deriving DecidableEq, Repr

/-- `mode = 'W' | 'dBm' | '?'` from the if/elif/else on `units`. -/
def modeOfUnits (units : Int) : String :=
  if units = 0 then "W" else if units = 1 then "dBm" else "?"

/-- The `rel_mode` tail of `PM.get_mode`:
`rel_mode = response[17] if len(response) >= 18 else -1`, then
`if rel_mode > 0: mode += " rel"`.  When `rel_mode` holds a character,
CPython 2 compares the `str` greater than the `int` `0`, so the suffix is
appended for every character value; when `rel_mode = -1` the comparison is
false. -/
def finishParse (response : String) (mode : String) : ParseOutcome :=
  if 18 ≤ pyLen response then
    match charAt response 17 with
    | Option.none => ParseOutcome.indexError
    | Option.some _ => ParseOutcome.ok (mode ++ " rel")
  else
    ParseOutcome.ok mode

/-- The parsing tail of `PM.get_mode`:
`units = int(response[14]) if len(response) >= 15 else -1`, the
if/elif/else choosing `mode`, then the `rel_mode` step.  `int` on a
one-character string raises `ValueError` unless the character is a digit. -/
def get_mode_parse (response : String) : ParseOutcome :=
  if 15 ≤ pyLen response then
    match charAt response 14 with
    | Option.none => ParseOutcome.indexError
    | Option.some c =>
      if c.isDigit then
        finishParse response (modeOfUnits ((c.toNat : Int) - ('0'.toNat : Int)))
      else
        ParseOutcome.valueError
  else
    finishParse response (modeOfUnits (-1))

/-- What a call to `PM.get_mode` does: returns Python `None`, returns a
mode string, or propagates an uncaught exception. -/
inductive GetModeResult where
  | pyNone
  | raisedValueError
  | raisedIndexError
  | mode (m : String)
deriving DecidableEq, Repr

/-- `PM.get_mode`.  `writeOk` / `readOk` say whether the guarded
`self.write("SM")` / `self.read()` calls succeeded (their `except` blocks
log and return `None`); `response` is what `self.read()` returned when it
succeeded. -/
def get_mode (pm_type : String) (writeOk readOk : Bool) (response : String) :
    GetModeResult :=
  if knownPmType pm_type then
    if !writeOk then GetModeResult.pyNone
    else if !readOk then GetModeResult.pyNone
    else
      match get_mode_parse response with
      | ParseOutcome.ok m => GetModeResult.mode m
      | ParseOutcome.valueError => GetModeResult.raisedValueError
      | ParseOutcome.indexError => GetModeResult.raisedIndexError
  else
    GetModeResult.pyNone

/-- `PM._n_avgs_`: `2**self.filtercode`. -/
def n_avgs (filtercode : Nat) : Nat := 2 ^ filtercode

/-- The observable effect of `PM.init` (HP43x.py): commands written and
attributes assigned (`none` = the attribute is not assigned), plus whether
the `else` branch logged its "not implemented" error. -/
structure InitOutcome where
  writes : List String
  filtercode : Option Nat
  num_averages : Option Nat
  mode : Option String
  loggedError : Bool
deriving DecidableEq, Repr

/-- `PM.init` (HP43x.py). -/
def init (pm_type : String) : InitOutcome :=
  if reSearch "437" pm_type || reSearch "438" pm_type then
    { writes := ["LM0LNAPTR3RAENFM5ENRE3EN\r\n"]
      filtercode := Option.some 5
      num_averages := Option.some (n_avgs 5)
      mode := Option.some "LN"
      loggedError := false }
  else
    { writes := []
      filtercode := Option.none
      num_averages := Option.none
      mode := Option.none
      loggedError := true }

/-- The mode values the class documentation allows:
`mode - data mode ( W | dBm | ? [rel] )`. -/
def allowedModes : List String :=
  ["W", "dBm", "?", "W rel", "dBm rel", "? rel"]

/-- What a call to `PM.get_readings` does: returns `readings, self.mode`,
or propagates an uncaught exception. -/
inductive GetReadingsResult where
  | ok (readings : List ℚ) (mode : Option String)
  | raisedValueError
  | raisedIndexError
  | raisedNameError
deriving DecidableEq, Repr

/-- The reading loop of `PM.get_readings` in `HP43x.py`:
`for i in range(0, num)`, each iteration appends the parsed float (the
sentinel `0` when the bare `except` caught a failure; the parsed values
are abstracted as rationals, `reading i = none` meaning
`float(self.read().strip())` raised), and then, while `i < num-1`,
evaluates `sleep(0.5)` — but `HP43x.py` imports only `logging`, `re`,
`numpy`, `Gpib` and the `pm` registry, never `sleep`, so that line raises
an uncaught `NameError` (`Option.none` here).  `left` counts the
iterations still to run, so the loop is entered at `i = 0`,
`left = num`. -/
def readLoop43x (reading : Nat → Option ℚ) (num : Nat) :
    Nat → Nat → Option (List ℚ)
  | _, 0 => Option.some []
  | i, left + 1 =>
    let v : ℚ :=
      match reading i with
      | Option.some x => x
      | Option.none => 0
    if i < num - 1 then
      Option.none
    else
      match readLoop43x reading num (i + 1) left with
      | Option.none => Option.none
      | Option.some rest => Option.some (v :: rest)

/-- `PM.get_readings` in `HP43x.py`: `self.mode = self.get_mode()` runs
first, outside any `try`, so an exception of `get_mode` propagates; then
the reading loop runs (hitting the unbound name `sleep` whenever
`num ≥ 2`); on completion the pair `readings, self.mode` is returned. -/
def get_readings_43x (pm_type : String) (writeOk readOk : Bool)
    (response : String) (reading : Nat → Option ℚ) (num : Nat) :
    GetReadingsResult :=
  match get_mode pm_type writeOk readOk response with
  | GetModeResult.raisedValueError => GetReadingsResult.raisedValueError
  | GetModeResult.raisedIndexError => GetReadingsResult.raisedIndexError
  | GetModeResult.pyNone =>
    match readLoop43x reading num 0 num with
    | Option.none => GetReadingsResult.raisedNameError
    | Option.some readings => GetReadingsResult.ok readings Option.none
  | GetModeResult.mode m =>
    match readLoop43x reading num 0 num with
    | Option.none => GetReadingsResult.raisedNameError
    | Option.some readings => GetReadingsResult.ok readings (Option.some m)

/-- The reading loop of `PM.get_readings` in `__init__.py`: that module
does `from time import sleep, ctime, time`, so `sleep(0.5)` only delays
and the loop appends one value per iteration, the sentinel `0` where
parsing raised. -/
def readLoopPkg (reading : Nat → Option ℚ) (num : Nat) : List ℚ :=
  (List.range num).map fun i =>
    match reading i with
    | Option.some x => x
    | Option.none => 0

/-- `PM.get_readings` in `__init__.py`: identical to the `HP43x.py` copy
except that `sleep` is bound, so the loop completes. -/
def get_readings_pkg (pm_type : String) (writeOk readOk : Bool)
    (response : String) (reading : Nat → Option ℚ) (num : Nat) :
    GetReadingsResult :=
  match get_mode pm_type writeOk readOk response with
  | GetModeResult.raisedValueError => GetReadingsResult.raisedValueError
  | GetModeResult.raisedIndexError => GetReadingsResult.raisedIndexError
  | GetModeResult.pyNone =>
    GetReadingsResult.ok (readLoopPkg reading num) Option.none
  | GetModeResult.mode m =>
    GetReadingsResult.ok (readLoopPkg reading num) (Option.some m)

/-- `PM.set_mode`: the commands written and the value assigned to
`self.mode`. -/
def set_mode (pm_type : String) (mode : String) : List String × String :=
  if mode = "W" then
    (if reSearch "436" pm_type then ["9A+V"]
     else if knownPmType pm_type then ["LN"]
     else [],
     "W")
  else
    (if reSearch "436" pm_type then ["9D+V"]
     else if knownPmType pm_type then ["LG"]
     else [],
     "dBm")

/-- The attributes of a `PM` instance that its methods can touch. -/
structure PMState where
  pm_type : String
  mode : Option String
  filtercode : Nat
  num_averages : Nat
deriving DecidableEq, Repr

/-- The `while status == "06"` loop of `PM.zero`: each iteration writes
`"SM"` and consumes one status response; the loop exits as soon as a
response's characters 4:6 differ from "06".  Returns the `"SM"` commands
written, or `none` when the supplied responses are exhausted while the
status still reads "06" (the Python loop would keep spinning). -/
def zeroLoop : List String → Option (List String)
  | [] => Option.none
  | r :: rs =>
    if statusSlice r = "06" then
      match zeroLoop rs with
      | Option.none => Option.none
      | Option.some t => Option.some ("SM" :: t)
    else
      Option.some ["SM"]

/-- `PM.zero`: given the state and the sequence of status responses the
instrument will return, yields the resulting state and the full list of
commands written (in order), or `none` when the wait loop never exits.
No branch of the method assigns any attribute. -/
def zero (s : PMState) (reads : List String) :
    Option (PMState × List String) :=
  if reSearch "436" s.pm_type then
    match zeroLoop reads with
    | Option.none => Option.none
    | Option.some sms =>
      Option.some (s, "LM0LNTR3RM1ENFM5EN" :: "ZEEN" ::
        (sms ++ ["LM0LNTR3RM4ENFM5EN"]))
  else if reSearch "437" s.pm_type || reSearch "438" s.pm_type then
    match zeroLoop reads with
    | Option.none => Option.none
    | Option.some sms =>
      Option.some (s, "LM0LNAPTR3RM1ENFM5EN" :: "ZEEN" ::
        (sms ++ ["LM0LNAPTR3RM4ENFM5EN"]))
  else
    Option.some (s, [])

namespace SG

/-- `SG.set_freq`: the commands written (`str(freq)` is abstracted as the
string `freq`). -/
def set_freq (freq : String) : List String := ["FREQ:CW " ++ freq ++ " HZ"]

/-- `SG.power_on`: the commands written. -/
def power_on : List String := [":RF1"]

/-- `SG.power_off`: the commands written. -/
def power_off : List String := [":RF0"]

end SG

/-- C1: the rel-flag byte is ignored.  The code's own example response
`000000151105170A0002000` has `'0'` (relative mode off) at offset 17, yet
`get_mode` returns `"W rel"`: in CPython 2 `rel_mode > 0` compares a `str`
with an `int` and is true for every character, so `" rel"` is appended to
the mode for every response of length ≥ 18, regardless of the flag byte.
The claim, that `" rel"` is appended exactly when the flag byte indicates
relative mode, fails on the code. -/
theorem get_mode_appends_rel_for_cleared_flag :
    charAt "000000151105170A0002000" 17 = Option.some '0' ∧
    get_mode "438" true true "000000151105170A0002000" =
      GetModeResult.mode "W rel" := by
  constructor
  · rfl
  · rfl

/-- C2: the mode invariant is broken by `PM.init`.  On a 437/438-type
meter, `init` assigns `self.mode = 'LN'`, which is not one of the values
the class documentation allows (`W | dBm | ? [rel]`). -/
theorem init_sets_mode_outside_documented_set :
    (reSearch "437" "437" = true) ∧
    (init "437").mode = Option.some "LN" ∧
    "LN" ∉ allowedModes := by
  refine ⟨rfl, rfl, ?_⟩
  decide

/-- C7: `SG.set_freq(f)` writes exactly `"FREQ:CW " + str(f) + " HZ"`,
`SG.power_on` writes exactly `":RF1"`, and `SG.power_off` writes exactly
`":RF0"`. -/
theorem sg_fixed_command_strings :
    (∀ f : String, SG.set_freq f = ["FREQ:CW " ++ f ++ " HZ"]) ∧
    SG.power_on = [":RF1"] ∧ SG.power_off = [":RF0"] :=
  ⟨fun _ => rfl, rfl, rfl⟩

theorem char_eq_of_toNat_eq {c d : Char} (h : c.toNat = d.toNat) : c = d :=
  Char.ext (UInt32.ext h)

theorem charAt_of_lt {s : String} {i : Nat} (h : i < pyLen s) :
    ∃ c, charAt s i = Option.some c :=
  ⟨_, List.getElem?_eq_getElem h⟩

theorem lt_pyLen_of_charAt {s : String} {i : Nat} {c : Char}
    (h : charAt s i = Option.some c) : i < pyLen s :=
  (List.getElem?_eq_some_iff.mp h).1

theorem modeOfUnits_cases (u : Int) :
    modeOfUnits u = "W" ∨ modeOfUnits u = "dBm" ∨ modeOfUnits u = "?" := by
  unfold modeOfUnits
  split
  · exact Or.inl rfl
  split
  · exact Or.inr (Or.inl rfl)
  · exact Or.inr (Or.inr rfl)

theorem finishParse_short {response : String} (h : pyLen response < 18)
    (m : String) : finishParse response m = ParseOutcome.ok m := by
  unfold finishParse
  rw [if_neg (by omega)]

theorem finishParse_long {response : String} (h : 18 ≤ pyLen response)
    (m : String) : finishParse response m = ParseOutcome.ok (m ++ " rel") := by
  unfold finishParse
  obtain ⟨c, hc⟩ := charAt_of_lt (show 17 < pyLen response by omega)
  rw [if_pos h, hc]

theorem parse_short {response : String} (h : pyLen response < 15) :
    get_mode_parse response = ParseOutcome.ok "?" := by
  unfold get_mode_parse
  rw [if_neg (by omega), finishParse_short (by omega)]
  rfl

theorem parse_digit {response : String} {c : Char}
    (hc : charAt response 14 = Option.some c) (hd : c.isDigit = true) :
    get_mode_parse response =
      finishParse response (modeOfUnits ((c.toNat : Int) - ('0'.toNat : Int))) := by
  have h15 : 15 ≤ pyLen response := lt_pyLen_of_charAt hc
  unfold get_mode_parse
  rw [if_pos h15, hc]
  simp [hd]

theorem parse_nondigit {response : String} {c : Char}
    (hc : charAt response 14 = Option.some c) (hd : c.isDigit = false) :
    get_mode_parse response = ParseOutcome.valueError := by
  have h15 : 15 ≤ pyLen response := lt_pyLen_of_charAt hc
  unfold get_mode_parse
  rw [if_pos h15, hc]
  simp [hd]

theorem parse_never_indexError (response : String) :
    get_mode_parse response ≠ ParseOutcome.indexError := by
  by_cases h15 : 15 ≤ pyLen response
  · obtain ⟨c, hc⟩ := charAt_of_lt (show 14 < pyLen response by omega)
    by_cases hd : c.isDigit
    · rw [parse_digit hc hd]
      by_cases h18 : 18 ≤ pyLen response
      · rw [finishParse_long h18]; simp
      · rw [finishParse_short (by omega)]; simp
    · rw [parse_nondigit hc (by simpa using hd)]; simp
  · rw [parse_short (by omega)]; simp

theorem get_mode_known_eq {pm_type : String} (response : String)
    (hk : knownPmType pm_type = true) :
    get_mode pm_type true true response =
      match get_mode_parse response with
      | ParseOutcome.ok m => GetModeResult.mode m
      | ParseOutcome.valueError => GetModeResult.raisedValueError
      | ParseOutcome.indexError => GetModeResult.raisedIndexError := by
  unfold get_mode
  rw [if_pos hk]
  rfl

/-- C3 (counterexample): the claim says a response whose byte at offset 14
is neither `'0'` nor `'1'` makes `get_mode` return `'?'` rather than raise.
For the 15-character response `00000000000000A` the byte at offset 14 is
`'A'`, and `int('A')` raises an uncaught `ValueError`: `get_mode`
propagates the exception instead of returning `'?'`. -/
theorem get_mode_raises_on_nondigit_mode_byte :
    charAt "00000000000000A" 14 = Option.some 'A' ∧
    get_mode "438" true true "00000000000000A" =
      GetModeResult.raisedValueError ∧
    GetModeResult.raisedValueError ≠ GetModeResult.mode "?" := by
  refine ⟨rfl, rfl, by decide⟩

/-- C3 (amended): `PM.get_mode` returns the Python `None` sentinel, after
logging, for every `pm_type` matching none of "437", "438", "E4418", and
when the guarded GPIB write or read fails.  When the response is shorter
than 15 characters it returns `'?'`; when the byte at offset 14 is a digit
other than `'0'` and `'1'` it returns `'?'` (with `" rel"` appended when
the response has length at least 18).  However, a non-digit byte at offset
14 raises an uncaught `ValueError`, so `get_mode` is not exception-free. -/
theorem get_mode_failure_behaviour (pm_type : String) (writeOk readOk : Bool)
    (response : String) :
    ((knownPmType pm_type = false ∨ writeOk = false ∨ readOk = false) →
      get_mode pm_type writeOk readOk response = GetModeResult.pyNone) ∧
    (knownPmType pm_type = true → writeOk = true → readOk = true →
      ((pyLen response < 15 →
        get_mode pm_type writeOk readOk response = GetModeResult.mode "?") ∧
      (∀ c, charAt response 14 = Option.some c → c.isDigit = true →
        c ≠ '0' → c ≠ '1' →
        get_mode pm_type writeOk readOk response =
          GetModeResult.mode (if 18 ≤ pyLen response then "? rel" else "?")) ∧
      (∀ c, charAt response 14 = Option.some c → c.isDigit = false →
        get_mode pm_type writeOk readOk response =
          GetModeResult.raisedValueError))) := by
  constructor
  · intro h
    unfold get_mode
    rcases h with h | h | h <;> simp [h]
  · intro hk hw hr
    subst hw; subst hr
    refine ⟨?_, ?_, ?_⟩
    · intro h15
      rw [get_mode_known_eq response hk, parse_short h15]
    · intro c hc hd h0 h1
      have hu0 : (c.toNat : Int) - ('0'.toNat : Int) ≠ 0 := by
        intro h
        exact h0 (char_eq_of_toNat_eq (by omega))
      have hu1 : (c.toNat : Int) - ('0'.toNat : Int) ≠ 1 := by
        intro h
        have : c.toNat = '1'.toNat := by
          have h1n : ('1').toNat = 49 := rfl
          have h0n : ('0').toNat = 48 := rfl
          omega
        exact h1 (char_eq_of_toNat_eq this)
      have hm : modeOfUnits ((c.toNat : Int) - ('0'.toNat : Int)) = "?" := by
        unfold modeOfUnits
        rw [if_neg hu0, if_neg hu1]
      rw [get_mode_known_eq response hk, parse_digit hc hd, hm]
      by_cases h18 : 18 ≤ pyLen response
      · rw [finishParse_long h18, if_pos h18]; rfl
      · rw [finishParse_short (by omega), if_neg h18]
    · intro c hc hd
      rw [get_mode_known_eq response hk, parse_nondigit hc hd]

theorem get_mode_failure_behaviour_checked :
    get_mode "436" true true "" = GetModeResult.pyNone ∧
    get_mode "438" true true "0000" = GetModeResult.mode "?" ∧
    get_mode "438" true true "00000000000000500" = GetModeResult.mode "?" :=
  ⟨(get_mode_failure_behaviour "436" true true "").1 (Or.inl (by decide)),
   ((get_mode_failure_behaviour "438" true true "0000").2 (by decide)
     rfl rfl).1 (by decide),
   by
    have h := ((get_mode_failure_behaviour "438" true true
      "00000000000000500").2 (by decide) rfl rfl).2.1 '5' (by decide)
      (by decide) (by decide) (by decide)
    simpa using h⟩

theorem readLoop43x_none_of_two (reading : Nat → Option ℚ) (num : Nat)
    (h : 2 ≤ num) : readLoop43x reading num 0 num = Option.none := by
  obtain ⟨k, rfl⟩ : ∃ k, num = k + 2 := ⟨num - 2, by omega⟩
  rw [readLoop43x]
  rw [if_pos (by omega)]

/-- C4 (code bug): `HP43x.py` never imports `sleep`, so for every
`num ≥ 2` its `PM.get_readings` evaluates the unbound name `sleep` at the
end of the first loop iteration and raises an uncaught `NameError` —
concretely, `get_readings(2)` on a 438 raises instead of returning a pair
(when the unguarded `get_mode` call does not already raise its
`ValueError` first).  The claimed property is the behaviour of the
`__init__.py` copy, which imports `sleep` from `time`: whenever that copy
returns, `readings` has exactly `num` entries, each parse failure replaced
by the sentinel `0`, never raised. -/
theorem get_readings_sleep_unbound :
    (∀ (pm_type : String) (writeOk readOk : Bool) (response : String)
      (reading : Nat → Option ℚ) (num : Nat), 2 ≤ num →
      ∀ (rs : List ℚ) (m : Option String),
        get_readings_43x pm_type writeOk readOk response reading num ≠
          GetReadingsResult.ok rs m) ∧
    get_readings_43x "438" true true "000000000000000"
      (fun _ => Option.some 1) 2 = GetReadingsResult.raisedNameError ∧
    (∀ (pm_type : String) (writeOk readOk : Bool) (response : String)
      (reading : Nat → Option ℚ) (num : Nat) (rs : List ℚ)
      (m : Option String),
      get_readings_pkg pm_type writeOk readOk response reading num =
        GetReadingsResult.ok rs m →
      rs.length = num ∧ ∀ i, i < num →
        rs[i]? = Option.some (match reading i with
          | Option.some x => x
          | Option.none => 0)) := by
  refine ⟨?_, ?_, ?_⟩
  · intro pm_type writeOk readOk response reading num h rs m hEq
    have hl := readLoop43x_none_of_two reading num h
    unfold get_readings_43x at hEq
    cases hres : get_mode pm_type writeOk readOk response <;>
      rw [hres] at hEq <;> simp [hl] at hEq
  · rfl
  · intro pm_type writeOk readOk response reading num rs m hEq
    have key : ∀ mo, GetReadingsResult.ok (readLoopPkg reading num) mo =
        GetReadingsResult.ok rs m → rs.length = num ∧ ∀ i, i < num →
          rs[i]? = Option.some (match reading i with
            | Option.some x => x
            | Option.none => 0) := by
      intro mo h
      obtain ⟨h1, h2⟩ := GetReadingsResult.ok.inj h
      subst h1
      refine ⟨by simp [readLoopPkg], ?_⟩
      intro i hi
      simp [readLoopPkg, List.getElem?_range hi]
    unfold get_readings_pkg at hEq
    cases hres : get_mode pm_type writeOk readOk response <;>
      rw [hres] at hEq
    · exact key Option.none hEq
    · exact absurd hEq (by simp)
    · exact absurd hEq (by simp)
    · exact key _ hEq

theorem get_readings_sleep_unbound_checked :
    get_readings_43x "438" true true "000000000000000"
      (fun _ => Option.some (1 : ℚ)) 2 ≠
      GetReadingsResult.ok [1, 1] (Option.some "W") :=
  get_readings_sleep_unbound.1 "438" true true "000000000000000"
    (fun _ => Option.some (1 : ℚ)) 2 (by omega) [1, 1] (Option.some "W")

/-- C5: for every `pm_type` containing "437" or "438", `PM.init` writes the
single command `"LM0LNAPTR3RAENFM5ENRE3EN\r\n"`, sets the filter code to 5
and `num_averages` to `2 ** filtercode = 32`; for any other `pm_type` it
writes nothing and logs the "not implemented" error. -/
theorem init_command_and_averaging (pm_type : String) :
    ((reSearch "437" pm_type || reSearch "438" pm_type) = true →
      init pm_type =
        { writes := ["LM0LNAPTR3RAENFM5ENRE3EN\r\n"]
          filtercode := Option.some 5
          num_averages := Option.some (n_avgs 5)
          mode := Option.some "LN"
          loggedError := false }) ∧
    n_avgs 5 = 32 ∧
    ((reSearch "437" pm_type || reSearch "438" pm_type) = false →
      init pm_type =
        { writes := []
          filtercode := Option.none
          num_averages := Option.none
          mode := Option.none
          loggedError := true }) := by
  refine ⟨fun h => ?_, by norm_num [n_avgs], fun h => ?_⟩ <;> simp [init, h]

theorem init_command_and_averaging_checked :
    (init "HP438A").writes = ["LM0LNAPTR3RAENFM5ENRE3EN\r\n"] ∧
    (init "HP438A").num_averages = Option.some 32 ∧
    (init "E4418").writes = [] ∧ (init "E4418").loggedError = true := by
  have h1 := (init_command_and_averaging "HP438A").1 (by decide)
  have h2 := (init_command_and_averaging "E4418").2.2 (by decide)
  rw [h1, h2]
  decide

theorem zeroLoop_spec (rs : List String) (r : String)
    (hrs : ∀ x ∈ rs, statusSlice x = "06") (hr : statusSlice r ≠ "06") :
    zeroLoop (rs ++ [r]) = Option.some (List.replicate (rs.length + 1) "SM") := by
  induction rs with
  | nil => simp [zeroLoop, hr]
  | cons a rs ih =>
    have ha : statusSlice a = "06" := hrs a (by simp)
    have ih' := ih fun x hx => hrs x (by simp [hx])
    simp [zeroLoop, ha, ih', List.replicate_succ]

/-- C6 (counterexample): the claim quantifies over every `pm_type`
containing "437", but `PM.zero` tests `re.search('436', ...)` first, so a
`pm_type` such as `"436437"` (which contains "437") takes the 436 branch
and writes `"LM0LNTR3RM1ENFM5EN"` — not the claimed
`"LM0LNAPTR3RM1ENFM5EN"`. -/
theorem zero_436_match_shadows_437 :
    reSearch "437" "436437" = true ∧
    zero { pm_type := "436437", mode := Option.none, filtercode := 0,
           num_averages := 0 } ["xxxx07"] =
      Option.some ({ pm_type := "436437", mode := Option.none,
                     filtercode := 0, num_averages := 0 },
        ["LM0LNTR3RM1ENFM5EN", "ZEEN", "SM", "LM0LNTR3RM4ENFM5EN"]) ∧
    "LM0LNTR3RM1ENFM5EN" ≠ "LM0LNAPTR3RM1ENFM5EN" :=
  ⟨rfl, rfl, by decide⟩

/-- C6 (amended): for every `pm_type` containing "437" or "438" but not
"436", `PM.zero` writes, in order, the zeroing configuration
`"LM0LNAPTR3RM1ENFM5EN"`, then `"ZEEN"`, then one `"SM"` per status read,
continuing exactly while characters 4:6 of the status equal "06", and only
after the status leaves "06" the restore configuration
`"LM0LNAPTR3RM4ENFM5EN"`, which differs from the zeroing configuration
only at the ranging digit (offset 12: `'1'` vs `'4'`). -/
theorem zero_writes_for_437_438 (s : PMState) (rs : List String) (r : String)
    (h436 : reSearch "436" s.pm_type = false)
    (h4378 : (reSearch "437" s.pm_type || reSearch "438" s.pm_type) = true)
    (hrs : ∀ x ∈ rs, statusSlice x = "06") (hr : statusSlice r ≠ "06") :
    zero s (rs ++ [r]) =
      Option.some (s, "LM0LNAPTR3RM1ENFM5EN" :: "ZEEN" ::
        (List.replicate (rs.length + 1) "SM" ++ ["LM0LNAPTR3RM4ENFM5EN"])) ∧
    pyLen "LM0LNAPTR3RM1ENFM5EN" = 20 ∧
    pyLen "LM0LNAPTR3RM4ENFM5EN" = 20 ∧
    (∀ i, i < 20 → i ≠ 12 →
      charAt "LM0LNAPTR3RM1ENFM5EN" i = charAt "LM0LNAPTR3RM4ENFM5EN" i) ∧
    charAt "LM0LNAPTR3RM1ENFM5EN" 12 = Option.some '1' ∧
    charAt "LM0LNAPTR3RM4ENFM5EN" 12 = Option.some '4' := by
  refine ⟨?_, rfl, rfl, by decide, rfl, rfl⟩
  unfold zero
  rw [if_neg (by simp [h436]), if_pos (by simp [h4378]),
    zeroLoop_spec rs r hrs hr]

theorem zero_writes_for_437_438_checked :
    zero { pm_type := "438", mode := Option.none, filtercode := 5,
           num_averages := 32 } ["xxxx06", "xxxx00"] =
      Option.some ({ pm_type := "438", mode := Option.none, filtercode := 5,
                     num_averages := 32 },
        ["LM0LNAPTR3RM1ENFM5EN", "ZEEN", "SM", "SM",
         "LM0LNAPTR3RM4ENFM5EN"]) := by
  have h := (zero_writes_for_437_438
    { pm_type := "438", mode := Option.none, filtercode := 5,
      num_averages := 32 } ["xxxx06"] "xxxx00"
    (by decide) (by decide) (by decide) (by decide)).1
  simpa [List.replicate] using h

/-- C8: for every argument other than the exact string "W", `PM.set_mode`
falls into the dBm branch: it writes `"9D+V"` on a 436, `"LG"` on a
437/438/E4418 that is not a 436 (the 436 test comes first in the `elif`
chain), and assigns `self.mode = "dBm"`; and after any call to `set_mode`
the mode attribute is exactly "W" or "dBm". -/
theorem set_mode_defaults_to_dBm (pm_type m : String) :
    ((set_mode pm_type m).2 = "W" ∨ (set_mode pm_type m).2 = "dBm") ∧
    (m ≠ "W" →
      (set_mode pm_type m).2 = "dBm" ∧
      (reSearch "436" pm_type = true → (set_mode pm_type m).1 = ["9D+V"]) ∧
      (reSearch "436" pm_type = false → knownPmType pm_type = true →
        (set_mode pm_type m).1 = ["LG"])) := by
  unfold set_mode
  by_cases hm : m = "W"
  · rw [if_pos hm]
    exact ⟨Or.inl rfl, fun h => absurd hm h⟩
  · rw [if_neg hm]
    refine ⟨Or.inr rfl, fun _ => ⟨rfl, fun h436 => ?_, fun h436 hk => ?_⟩⟩
    · simp [h436]
    · simp [h436, hk]

theorem set_mode_defaults_to_dBm_checked :
    (set_mode "437" "dBm").2 = "dBm" ∧ (set_mode "437" "dBm").1 = ["LG"] ∧
    (set_mode "436" "dBm").1 = ["9D+V"] := by
  have h7 := (set_mode_defaults_to_dBm "437" "dBm").2 (by decide)
  have h6 := (set_mode_defaults_to_dBm "436" "dBm").2 (by decide)
  exact ⟨h7.1, h7.2.2 (by decide) (by decide), h6.2.1 (by decide)⟩

/-- C9: the parsing step of `PM.get_mode` never indexes past the end of the
response: no response of any length produces an `IndexError`; every
response shorter than 15 characters yields the mode `'?'`; and for every
response shorter than 18 characters no `" rel"` suffix is appended (the
successful results are exactly "W", "dBm" or "?"). -/
theorem get_mode_parse_no_index_error (response : String) :
    get_mode_parse response ≠ ParseOutcome.indexError ∧
    (pyLen response < 15 → get_mode_parse response = ParseOutcome.ok "?") ∧
    (pyLen response < 18 → ∀ m,
      get_mode_parse response = ParseOutcome.ok m →
      m = "W" ∨ m = "dBm" ∨ m = "?") := by
  refine ⟨parse_never_indexError response, fun h => parse_short h, ?_⟩
  intro h18 m hm
  by_cases h15 : 15 ≤ pyLen response
  · obtain ⟨c, hc⟩ := charAt_of_lt (show 14 < pyLen response by omega)
    by_cases hd : c.isDigit
    · rw [parse_digit hc hd, finishParse_short h18] at hm
      have := modeOfUnits_cases ((c.toNat : Int) - ('0'.toNat : Int))
      cases hm
      exact this
    · rw [parse_nondigit hc (by simpa using hd)] at hm
      cases hm
  · rw [parse_short (by omega)] at hm
    cases hm
    exact Or.inr (Or.inr rfl)

theorem get_mode_parse_no_index_error_checked :
    get_mode_parse "0000" = ParseOutcome.ok "?" :=
  (get_mode_parse_no_index_error "0000").2.1 (by decide)

/-- C10: for every `pm_type` matching none of "436", "437", "438",
`PM.zero` is a no-op: it falls to the final `else: pass`, writing no
command, consuming no status read (the result does not depend on the
available responses), and leaving every attribute of the state unchanged. -/
theorem zero_noop_for_unknown_type (s : PMState) (reads : List String)
    (h436 : reSearch "436" s.pm_type = false)
    (h437 : reSearch "437" s.pm_type = false)
    (h438 : reSearch "438" s.pm_type = false) :
    zero s reads = Option.some (s, []) := by
  unfold zero
  simp [h436, h437, h438]

theorem zero_noop_for_unknown_type_checked :
    zero { pm_type := "E4418", mode := Option.some "W", filtercode := 5,
           num_averages := 32 } ["xxxx06"] =
      Option.some ({ pm_type := "E4418", mode := Option.some "W",
                     filtercode := 5, num_averages := 32 }, []) :=
  zero_noop_for_unknown_type _ _ (by decide) (by decide) (by decide)
